import Mathlib

/-!
Shallow embedding of `crates/polars-time/src/date_range.rs`: datetime/time
range generation over epoch integers, with a fixed-duration fast path and a
calendar-stepping general path.

Machine integers (`i64`) are modelled as unbounded `Int`; fallible Rust code
(`PolarsResult`) is modelled with `Except PolarsError`.  The general path's
`while` loop is modelled with an explicit fuel parameter: a result of
`Option.none` means the fuel bound was reached, `some r` means the Rust loop
returns `r` after finitely many iterations.  The calendar/timezone-aware
offset resolution (`Duration::add_ns`/`add_us`/`add_ms`, which live in the
`polars-time` windows module, outside this file) is modelled from the spec as
an injected calendar capability.
-/

deriving instance DecidableEq for Except

namespace PolarsTime

/-- Time unit of epoch integers (`polars TimeUnit`). -/
inductive TimeUnit where
  | Nanoseconds
  | Microseconds
  | Milliseconds
deriving DecidableEq, Repr

/-- Which of the two boundary instants are included (`polars ClosedWindow`). -/
inductive ClosedWindow where
  | Both
  | Left
  | Right
  | None
deriving DecidableEq, Repr

/-- Error type standing in for `PolarsError` / `PolarsResult`.  The taxonomy
follows the spec: `ComputeError` carries the invalid-interval message,
`Overflow` models arithmetic overflow during offset application, and
`TimezoneError` models timezone-resolution failure. -/
inductive PolarsError where
  | ComputeError (msg : String)
  | Overflow
  | TimezoneError
deriving DecidableEq, Repr

/-- A timezone identifier (`chrono_tz::Tz` is external; only its display name
is consulted by this module, when attaching metadata). -/
structure Tz where
  name : String
deriving DecidableEq, Repr

/-- Interval value (`polars Duration`): calendar components (months, weeks,
days), a fixed sub-day nanosecond component, and a global sign flag.  The
external parser produces non-negative components with the sign in
`negative`. -/
structure Duration where
  months : Int
  weeks : Int
  days : Int
  nsecs : Int
  negative : Bool
deriving DecidableEq, Repr

/-- `Duration::is_zero`: every component is zero. -/
def Duration.is_zero (d : Duration) : Bool :=
  d.months == 0 && d.weeks == 0 && d.days == 0 && d.nsecs == 0

/-- `Duration::nanoseconds`: the fixed sub-day component. -/
def Duration.nanoseconds (d : Duration) : Int := d.nsecs

/-- Apply the sign flag to a component magnitude. -/
def Duration.signed (d : Duration) (x : Int) : Int :=
  if d.negative then -x else x

/-- Modelled from the spec: `interval * step` (the `Mul<i64>` impl for
`Duration`, outside `src/`) scales every component of the duration by the
integer, flipping the sign flag when the integer is negative. -/
def Duration.mul (d : Duration) (i : Int) : Duration :=
  if i < 0 then
    ⟨d.months * (-i), d.weeks * (-i), d.days * (-i), d.nsecs * (-i), !d.negative⟩
  else
    ⟨d.months * i, d.weeks * i, d.days * i, d.nsecs * i, d.negative⟩

/-- Modelled from the spec: the calendar/timezone resolution capability
(spec §4.1, §6, §9).  `addMonthsDays tz tu m dd t` resolves adding `m`
calendar months followed by `dd` calendar days to the instant `t` (an epoch
integer in unit `tu`), against the local calendar of `tz` when present and a
timezone-naive calendar otherwise.  Failure (`Overflow`, `TimezoneError`)
models arithmetic overflow and timezone-resolution errors.  The spec (§9)
directs that this dependency be an injected capability so the core algorithm
can be exercised with a deterministic fake resolver. -/
structure Calendar where
  addMonthsDays : Option Tz → TimeUnit → Int → Int → Int → Except PolarsError Int

/-- Modelled from the spec: `Duration::add_ns` (polars-time windows module,
not under `src/`).  Per spec §4.1 it computes `t` plus the duration: calendar
components (months, then weeks·7+days days) resolved by the calendar
capability, then the fixed nanosecond component added at nanosecond scale,
each with the duration's sign applied. -/
def Duration.add_ns (cal : Calendar) (d : Duration) (t : Int) (tz : Option Tz) :
    Except PolarsError Int :=
  match cal.addMonthsDays tz TimeUnit.Nanoseconds (d.signed d.months)
      (d.signed (d.weeks * 7 + d.days)) t with
  | Except.error e => Except.error e
  | Except.ok t2 => Except.ok (t2 + d.signed d.nsecs)

/-- Modelled from the spec: `Duration::add_us`, as `add_ns` but the fixed
component is expressed at microsecond scale. -/
def Duration.add_us (cal : Calendar) (d : Duration) (t : Int) (tz : Option Tz) :
    Except PolarsError Int :=
  match cal.addMonthsDays tz TimeUnit.Microseconds (d.signed d.months)
      (d.signed (d.weeks * 7 + d.days)) t with
  | Except.error e => Except.error e
  | Except.ok t2 => Except.ok (t2 + d.signed (d.nsecs / 1000))

/-- Modelled from the spec: `Duration::add_ms`, as `add_ns` but the fixed
component is expressed at millisecond scale. -/
def Duration.add_ms (cal : Calendar) (d : Duration) (t : Int) (tz : Option Tz) :
    Except PolarsError Int :=
  match cal.addMonthsDays tz TimeUnit.Milliseconds (d.signed d.months)
      (d.signed (d.weeks * 7 + d.days)) t with
  | Except.error e => Except.error e
  | Except.ok t2 => Except.ok (t2 + d.signed (d.nsecs / 1000000))

/-- `apply_time_add` from the source: dispatch on the time unit and add
`interval * i` to `start`. -/
def apply_time_add (cal : Calendar) (start : Int) (interval : Duration) (i : Int)
    (tu : TimeUnit) (tz : Option Tz) : Except PolarsError Int :=
  match tu with
  | TimeUnit.Nanoseconds => Duration.add_ns cal (interval.mul i) start tz
  | TimeUnit.Microseconds => Duration.add_us cal (interval.mul i) start tz
  | TimeUnit.Milliseconds => Duration.add_ms cal (interval.mul i) start tz

/-- Chrono's `NaiveDateTime` is external; `in_nanoseconds_window` consults
only its `year()` accessor, so only the year is modelled. -/
structure NaiveDateTime where
  year : Int
deriving DecidableEq, Repr

/-- `in_nanoseconds_window` from the source: `!(ndt.year() > 2554 || ndt.year() < 1386)`. -/
def in_nanoseconds_window (ndt : NaiveDateTime) : Bool :=
  !(ndt.year > 2554 || ndt.year < 1386)

/-- Rust's `(a..b).step_by(k).collect::<Vec<i64>>()` for `k ≥ 1`: the values
`a + j*k` for `j = 0, 1, …` while strictly below `b`. -/
def stepRange (a b : Int) (k : Nat) : List Int :=
  if b ≤ a then []
  else (List.range ((b - a - 1).toNat / k + 1)).map (fun j : Nat => a + (j : Int) * (k : Int))

/-- Loop-continuation condition of the general path, per `closed`:
`t <= end` for Both/Right, `t < end` for Left/None (source lines 167-181). -/
def contCond (closed : ClosedWindow) (t endv : Int) : Bool :=
  match closed with
  | ClosedWindow.Both | ClosedWindow.Right => t ≤ endv
  | ClosedWindow.Left | ClosedWindow.None => t < endv

/-- Starting step index of the general path: `0` for Both/Left, `1` for
Right/None (source lines 159-162). -/
def startIdx (closed : ClosedWindow) : Int :=
  match closed with
  | ClosedWindow.Both | ClosedWindow.Left => 0
  | ClosedWindow.Right | ClosedWindow.None => 1

/-- The general-path loop of `datetime_range_i64` (source lines 164-185):
evaluate `f` at the current index, and while the continuation condition
holds, push the value and advance the index; the first value failing the
condition is discarded.  An error from `f` aborts immediately.  `fuel`
bounds the number of iterations: `Option.none` means the bound was hit. -/
def genLoop (f : Int → Except PolarsError Int) (endv : Int) (closed : ClosedWindow) :
    Nat → Int → Option (Except PolarsError (List Int))
  | 0, _ => Option.none
  | fuel + 1, i =>
    match f i with
    | Except.error err => some (Except.error err)
    | Except.ok t =>
      if contCond closed t endv then
        match genLoop f endv closed fuel (i + 1) with
        | Option.none => Option.none
        | some (Except.error err) => some (Except.error err)
        | some (Except.ok ts) => some (Except.ok (t :: ts))
      else some (Except.ok [])

/-- `datetime_range_i64` from the source.  Returns the ordered vector of
epoch integers.  Structure mirrors the Rust:
1. `start > end` returns `Ok(vec![])` before any validation;
2. a negative or zero interval fails with the ComputeError;
3. fast path when `weeks == months == days == 0`: Rust half-open ranges
   stepped by `interval.nanoseconds() as usize`;
4. otherwise the general calendar-stepping loop via `apply_time_add`
   (the source's `size` allocation hint does not influence the output and is
   not modelled). -/
def datetime_range_i64 (cal : Calendar) (fuel : Nat) (start endv : Int)
    (interval : Duration) (closed : ClosedWindow) (tu : TimeUnit) (tz : Option Tz) :
    Option (Except PolarsError (List Int)) :=
  if endv < start then some (Except.ok [])
  else if interval.negative || interval.is_zero then
    some (Except.error (PolarsError.ComputeError "`interval` must be positive"))
  else if interval.weeks = 0 ∧ interval.months = 0 ∧ interval.days = 0 then
    let interval_nsec := interval.nanoseconds
    some (Except.ok (match closed with
      | ClosedWindow.Both => stepRange start endv interval_nsec.toNat
      | ClosedWindow.Left => stepRange start (endv - interval_nsec) interval_nsec.toNat
      | ClosedWindow.Right => stepRange (start + interval_nsec) endv interval_nsec.toNat
      | ClosedWindow.None =>
          stepRange (start + interval_nsec) (endv - interval_nsec) interval_nsec.toNat))
  else
    genLoop (fun i => apply_time_add cal start interval i tu tz) endv closed fuel
      (startIdx closed)

/-- Sortedness flag recorded on a column (`polars IsSorted`). -/
inductive IsSorted where
  | Ascending
  | Descending
  | NotSorted
deriving DecidableEq, Repr

/-- The typed datetime column produced by `datetime_range_impl`: the integer
values with the time unit, optional timezone name, and sortedness flag
attached (the chunked-array machinery itself is external). -/
structure DatetimeChunked where
  name : String
  values : List Int
  tu : TimeUnit
  tz : Option String
  sorted : IsSorted
deriving DecidableEq, Repr

/-- The typed time-of-day column produced by `time_range_impl`; its values
are always nanoseconds since midnight. -/
structure TimeChunked where
  name : String
  values : List Int
  sorted : IsSorted
deriving DecidableEq, Repr

/-- `datetime_range_impl` from the source: run the generator, wrap the
integers into a datetime column carrying `tu` and the formatted timezone,
and set the sorted flag to ascending.  (The `timezones` feature is assumed
enabled, so a supplied timezone is attached.) -/
def datetime_range_impl (cal : Calendar) (fuel : Nat) (nm : String)
    (start endv : Int) (interval : Duration) (closed : ClosedWindow)
    (tu : TimeUnit) (tz : Option Tz) : Option (Except PolarsError DatetimeChunked) :=
  match datetime_range_i64 cal fuel start endv interval closed tu tz with
  | Option.none => Option.none
  | some (Except.error e) => some (Except.error e)
  | some (Except.ok v) =>
      some (Except.ok ⟨nm, v, tu, tz.map (fun t => t.name), IsSorted.Ascending⟩)

/-- `time_range_impl` from the source: run the generator at nanoseconds with
no timezone, wrap into a time column, and set the sorted flag to ascending. -/
def time_range_impl (cal : Calendar) (fuel : Nat) (nm : String)
    (start endv : Int) (interval : Duration) (closed : ClosedWindow) :
    Option (Except PolarsError TimeChunked) :=
  match datetime_range_i64 cal fuel start endv interval closed
      TimeUnit.Nanoseconds Option.none with
  | Option.none => Option.none
  | some (Except.error e) => some (Except.error e)
  | some (Except.ok v) => some (Except.ok ⟨nm, v, IsSorted.Ascending⟩)

/-- A calendar capability that always fails: used to exercise paths that must
not consult the resolver, and error propagation. -/
def errCal : Calendar :=
  ⟨fun _ _ _ _ _ => Except.error PolarsError.Overflow⟩

/-- Length of one calendar day in each unit, for the deterministic fake
calendar used in witnesses. -/
def dayLength : TimeUnit → Int
  | TimeUnit.Nanoseconds => 86400000000000
  | TimeUnit.Microseconds => 86400000000
  | TimeUnit.Milliseconds => 86400000

/-- A deterministic fake calendar (spec §9): every month resolves to 30 days,
every day to `dayLength tu`, ignoring the timezone. -/
def thirtyCal : Calendar :=
  ⟨fun _ tu m dd t => Except.ok (t + (m * 30 + dd) * dayLength tu)⟩

/-- A fixed interval of 2 nanoseconds. -/
def twoNs : Duration := ⟨0, 0, 0, 2, false⟩

/-- A fixed interval of 2 microseconds (2000 nanoseconds). -/
def twoUs : Duration := ⟨0, 0, 0, 2000, false⟩

/-- The zero duration. -/
def zeroDur : Duration := ⟨0, 0, 0, 0, false⟩

/-- A calendar interval of 1 day. -/
def oneDay : Duration := ⟨0, 0, 1, 0, false⟩

/-- A sample timezone identifier. -/
def amsterdamTz : Tz := ⟨"Europe Amsterdam"⟩

/-- Claim C1: the spec expects the fixed-duration fast path with `start = 0`,
`end = 10`, `interval = 2ns` to yield `[0,2,4,6,8,10]` (Both), `[0,2,4,6,8]`
(Left), `[2,4,6,8,10]` (Right), `[2,4,6,8]` (None).  This theorem evaluates
the code at exactly those inputs: the half-open Rust ranges it uses drop the
final element in every mode (`[0,2,4,6,8]`, `[0,2,4,6]`, `[2,4,6,8]`,
`[2,4,6]`), so `Both` does not include the last multiple of the step equal to
`end`, contradicting the claim, the ClosedWindow inclusion table and the
general path's own inclusive `t <= end` comparison. -/
theorem C1_fast_path_code_values :
    datetime_range_i64 errCal 0 0 10 twoNs ClosedWindow.Both TimeUnit.Nanoseconds
      Option.none = some (Except.ok [0, 2, 4, 6, 8]) ∧
    datetime_range_i64 errCal 0 0 10 twoNs ClosedWindow.Left TimeUnit.Nanoseconds
      Option.none = some (Except.ok [0, 2, 4, 6]) ∧
    datetime_range_i64 errCal 0 0 10 twoNs ClosedWindow.Right TimeUnit.Nanoseconds
      Option.none = some (Except.ok [2, 4, 6, 8]) ∧
    datetime_range_i64 errCal 0 0 10 twoNs ClosedWindow.None TimeUnit.Nanoseconds
      Option.none = some (Except.ok [2, 4, 6]) := by
  refine ⟨?_, ?_, ?_, ?_⟩ <;> decide

/-- Claim C2: the spec requires the fast-path step to be the interval's
duration expressed in the target unit, so that the same logical range
generated at different units agrees after conversion.  The code instead steps
unconditionally by `interval.nanoseconds()`: for a 2-microsecond interval over
the same 10-microsecond logical range, the nanosecond run yields
`[0,2000,4000,6000,8000]` (i.e. `[0,2,4,6,8]` µs) while the microsecond run
yields `[0]`, because the step `2000` is applied to microsecond-scaled
integers.  The sequences disagree after unit conversion, refuting the claim
on the code. -/
theorem C2_unit_mismatch_code_values :
    datetime_range_i64 errCal 0 0 10000 twoUs ClosedWindow.Both TimeUnit.Nanoseconds
      Option.none = some (Except.ok [0, 2000, 4000, 6000, 8000]) ∧
    datetime_range_i64 errCal 0 0 10 twoUs ClosedWindow.Both TimeUnit.Microseconds
      Option.none = some (Except.ok [0]) ∧
    List.map (fun t : Int => t / 1000) [0, 2000, 4000, 6000, 8000] ≠ [0] := by
  refine ⟨?_, ?_, ?_⟩ <;> decide

/-- Claim C3: whenever `start > end` the generator returns the empty sequence
and no error, for every calendar capability, fuel, interval (including zero
and negative ones), closed mode, unit and timezone: the early return precedes
interval validation. -/
theorem C3_start_gt_end_empty (cal : Calendar) (fuel : Nat) (start endv : Int)
    (interval : Duration) (closed : ClosedWindow) (tu : TimeUnit) (tz : Option Tz)
    (h : endv < start) :
    datetime_range_i64 cal fuel start endv interval closed tu tz =
      some (Except.ok []) := by
  unfold datetime_range_i64
  rw [if_pos h]

/-- Witness for C3 at a concrete input: `start = 1 > end = 0` with the zero
interval still yields the empty sequence, not an error. -/
theorem C3_start_gt_end_empty_witness :
    datetime_range_i64 errCal 5 1 0 zeroDur ClosedWindow.Both TimeUnit.Nanoseconds
      Option.none = some (Except.ok []) :=
  C3_start_gt_end_empty errCal 5 1 0 zeroDur ClosedWindow.Both TimeUnit.Nanoseconds
    Option.none (by decide)

/-- Claim C4 counterexample: the claim quantifies over every `start` and
`end`, but with `start = 1 > end = 0` a zero interval does not fail with the
"non-positive interval" ComputeError — the `start > end` early return fires
first and yields `Ok []`. -/
theorem C4_counterexample :
    datetime_range_i64 errCal 5 1 0 zeroDur ClosedWindow.Both TimeUnit.Nanoseconds
      Option.none = some (Except.ok []) ∧
    datetime_range_i64 errCal 5 1 0 zeroDur ClosedWindow.Both TimeUnit.Nanoseconds
      Option.none ≠
      some (Except.error (PolarsError.ComputeError "`interval` must be positive")) := by
  refine ⟨?_, ?_⟩ <;> decide

/-- Claim C4 as amended: for every `start ≤ end` (and every closed mode, unit
and timezone), a negative or zero interval makes the generator fail with the
"non-positive interval" ComputeError before any output is produced. -/
theorem C4_nonpositive_interval_errors (cal : Calendar) (fuel : Nat)
    (start endv : Int) (interval : Duration) (closed : ClosedWindow)
    (tu : TimeUnit) (tz : Option Tz) (hse : start ≤ endv)
    (hiv : interval.negative = true ∨ interval.is_zero = true) :
    datetime_range_i64 cal fuel start endv interval closed tu tz =
      some (Except.error (PolarsError.ComputeError "`interval` must be positive")) := by
  have hcond : (interval.negative || interval.is_zero) = true := by
    rcases hiv with h | h <;> simp [h]
  unfold datetime_range_i64
  rw [if_neg (not_lt.mpr hse), if_pos (by simp [hcond])]

/-- Witness for the amended C4: `start = end = 0` with the zero interval
fails with the ComputeError. -/
theorem C4_nonpositive_interval_errors_witness :
    datetime_range_i64 errCal 5 0 0 zeroDur ClosedWindow.Both TimeUnit.Nanoseconds
      Option.none =
      some (Except.error (PolarsError.ComputeError "`interval` must be positive")) :=
  C4_nonpositive_interval_errors errCal 5 0 0 zeroDur ClosedWindow.Both
    TimeUnit.Nanoseconds Option.none (by decide) (Or.inr (by decide))

/-- Claim C9: on the fast path (no calendar components) the output is
independent of the timezone argument, the time-unit argument, the calendar
capability (so the timezone resolver is never consulted) and the fuel bound:
two runs differing only in those arguments produce identical results. -/
theorem C9_fast_path_independent_of_tz_tu (cal cal' : Calendar) (fuel fuel' : Nat)
    (start endv : Int) (interval : Duration) (closed : ClosedWindow)
    (tu tu' : TimeUnit) (tz tz' : Option Tz)
    (h : interval.weeks = 0 ∧ interval.months = 0 ∧ interval.days = 0) :
    datetime_range_i64 cal fuel start endv interval closed tu tz =
      datetime_range_i64 cal' fuel' start endv interval closed tu' tz' := by
  by_cases h1 : endv < start
  · simp [datetime_range_i64, h1]
  · by_cases h2 : (interval.negative || interval.is_zero) = true
    · simp [datetime_range_i64, h1, h2]
    · simp [datetime_range_i64, h1, h2, h]

/-- Witness for C9: a concrete fast-path run is unchanged when the calendar
capability, fuel, unit and timezone all differ. -/
theorem C9_fast_path_independent_of_tz_tu_witness :
    datetime_range_i64 errCal 0 0 10 twoNs ClosedWindow.Both TimeUnit.Nanoseconds
      Option.none =
      datetime_range_i64 thirtyCal 7 0 10 twoNs ClosedWindow.Both
        TimeUnit.Milliseconds (some amsterdamTz) :=
  C9_fast_path_independent_of_tz_tu errCal thirtyCal 0 7 0 10 twoNs
    ClosedWindow.Both TimeUnit.Nanoseconds TimeUnit.Milliseconds Option.none
    (some amsterdamTz) (by decide)

/-- Characterization of a successful run of the general-path loop: every
output position `j` holds the successful value of `f` at index `i + j` and
satisfies the continuation condition, and `f` at the next index succeeds with
a value failing the condition (the discarded final candidate). -/
theorem genLoop_ok_spec (f : Int → Except PolarsError Int) (endv : Int)
    (c : ClosedWindow) :
    ∀ (fuel : Nat) (i : Int) (l : List Int),
      genLoop f endv c fuel i = some (Except.ok l) →
      (∀ j (hj : j < l.length),
          f (i + j) = Except.ok (l.get ⟨j, hj⟩) ∧
          contCond c (l.get ⟨j, hj⟩) endv = true) ∧
      ∃ t, f (i + l.length) = Except.ok t ∧ contCond c t endv = false := by
  intro fuel
  induction fuel with
  | zero => intro i l h; simp [genLoop] at h
  | succ fuel ih =>
    intro i l h
    unfold genLoop at h
    cases hf : f i with
    | error err => rw [hf] at h; simp at h
    | ok t =>
      rw [hf] at h
      dsimp only at h
      by_cases hc : contCond c t endv = true
      · rw [if_pos hc] at h
        cases hg : genLoop f endv c fuel (i + 1) with
        | none => rw [hg] at h; simp at h
        | some r =>
          cases r with
          | error err => rw [hg] at h; simp at h
          | ok ts =>
            rw [hg] at h
            simp only [Option.some.injEq, Except.ok.injEq] at h
            subst h
            obtain ⟨ihall, tl, ihlast, ihcond⟩ := ih (i + 1) ts hg
            constructor
            · intro j hj
              cases j with
              | zero => simpa using ⟨hf, hc⟩
              | succ j =>
                have harith : i + ((j : Int) + 1) = (i + 1) + j := by ring
                have := ihall j (by simpa using hj)
                simpa [harith] using this
            · refine ⟨tl, ?_, ihcond⟩
              have harith : i + ((ts.length : Int) + 1) = (i + 1) + ts.length := by
                ring
              simpa [harith] using ihlast
      · rw [if_neg hc] at h
        simp only [Option.some.injEq, Except.ok.injEq] at h
        subst h
        refine ⟨fun j hj => absurd hj (by simp), t, by simpa using hf, ?_⟩
        simpa using hc

/-- A successful general-path loop run produces a strictly ascending list
whenever `f` is strictly monotone across its succeeding indices. -/
theorem genLoop_ok_chain (f : Int → Except PolarsError Int) (endv : Int)
    (c : ClosedWindow) (fuel : Nat) (i : Int) (l : List Int)
    (hmono : ∀ a b ta tb, a < b → f a = Except.ok ta → f b = Except.ok tb →
      ta < tb)
    (h : genLoop f endv c fuel i = some (Except.ok l)) :
    l.Chain' (· < ·) := by
  obtain ⟨hall, -⟩ := genLoop_ok_spec f endv c fuel i l h
  rw [List.chain'_iff_get]
  intro j hj
  have h1 := hall j (by omega)
  have h2 := hall (j + 1) (by omega)
  have hlt : i + (j : Int) < i + ((j + 1 : Nat) : Int) := by push_cast; omega
  exact hmono _ _ _ _ hlt h1.1 h2.1

/-- The Rust stepped half-open range is strictly ascending (for a zero step
the code-path invariants make the list a singleton, so the statement is
unconditional). -/
theorem stepRange_chain (a b : Int) (k : Nat) :
    (stepRange a b k).Chain' (· < ·) := by
  unfold stepRange
  split
  · exact List.chain'_nil
  · rw [List.chain'_iff_get]
    intro j hj
    simp only [List.length_map, List.length_range] at hj
    have hk : 0 < k := by
      rcases Nat.eq_zero_or_pos k with h0 | h
      · subst h0; simp at hj
      · exact h
    have hk' : (0 : Int) < (k : Int) := by exact_mod_cast hk
    simp only [List.get_eq_getElem, List.getElem_map, List.getElem_range]
    have hjj : ((j : Int)) < ((j + 1 : Nat) : Int) := by push_cast; omega
    have := mul_lt_mul_of_pos_right hjj hk'
    omega

/-- If the loop's offset function succeeds with a continuing value at each of
the first `k` indices and errors at index `i + k`, the loop returns exactly
that error (no partial list), given at least `k + 1` iterations of fuel. -/
theorem genLoop_error_of_prefix (f : Int → Except PolarsError Int) (endv : Int)
    (c : ClosedWindow) :
    ∀ (k fuel : Nat) (i : Int) (err : PolarsError),
      k < fuel →
      (∀ j : Nat, j < k → ∃ t, f (i + j) = Except.ok t ∧
        contCond c t endv = true) →
      f (i + k) = Except.error err →
      genLoop f endv c fuel i = some (Except.error err) := by
  intro k
  induction k with
  | zero =>
    intro fuel i err hk hok herr
    cases fuel with
    | zero => omega
    | succ m =>
      unfold genLoop
      rw [show f i = Except.error err by simpa using herr]
  | succ k ih =>
    intro fuel i err hk hok herr
    cases fuel with
    | zero => omega
    | succ m =>
      obtain ⟨t0, hf0, hc0⟩ := hok 0 (Nat.succ_pos k)
      unfold genLoop
      rw [show f i = Except.ok t0 by simpa using hf0]
      dsimp only
      rw [if_pos hc0]
      have hrec : genLoop f endv c m (i + 1) = some (Except.error err) := by
        refine ih m (i + 1) err (by omega) ?_ ?_
        · intro j hj
          have := hok (j + 1) (by omega)
          have harith : i + ((j : Int) + 1) = (i + 1) + j := by ring
          simpa [harith] using this
        · have harith : i + ((k : Int) + 1) = (i + 1) + k := by ring
          simpa [harith] using herr
      rw [hrec]

/-- Claim C5: on every input accepted by the generator (non-negative,
non-zero interval) whose run succeeds with list `l`, the output is strictly
ascending, hence duplicate-free.  On the fast path this is unconditional; on
the calendar path it holds whenever the offset applier is strictly monotone
per step, which the spec (§4.2) states as a property of the calendar
collaborator (whose code is outside `src/`). -/
theorem C5_output_strictly_ascending (cal : Calendar) (fuel : Nat)
    (start endv : Int) (interval : Duration) (closed : ClosedWindow)
    (tu : TimeUnit) (tz : Option Tz) (l : List Int)
    (hneg : interval.negative = false) (hnz : interval.is_zero = false)
    (hmono : (interval.weeks = 0 ∧ interval.months = 0 ∧ interval.days = 0) ∨
      ∀ a b ta tb, a < b →
        apply_time_add cal start interval a tu tz = Except.ok ta →
        apply_time_add cal start interval b tu tz = Except.ok tb → ta < tb)
    (hres : datetime_range_i64 cal fuel start endv interval closed tu tz =
      some (Except.ok l)) :
    l.Chain' (· < ·) := by
  unfold datetime_range_i64 at hres
  by_cases h1 : endv < start
  · rw [if_pos h1] at hres
    simp only [Option.some.injEq, Except.ok.injEq] at hres
    subst hres
    exact List.chain'_nil
  · rw [if_neg h1, if_neg (by simp [hneg, hnz])] at hres
    by_cases h3 : interval.weeks = 0 ∧ interval.months = 0 ∧ interval.days = 0
    · rw [if_pos h3] at hres
      simp only [Option.some.injEq, Except.ok.injEq] at hres
      cases closed <;>
        exact hres ▸ stepRange_chain _ _ _
    · rw [if_neg h3] at hres
      rcases hmono with hfix | hmono
      · exact absurd hfix h3
      · exact genLoop_ok_chain _ _ _ _ _ _ hmono hres

/-- Witness for C5 at a concrete fast-path input: the produced sequence
`[0,2,4,6,8]` is strictly ascending. -/
theorem C5_output_strictly_ascending_witness :
    List.Chain' (· < ·) ([0, 2, 4, 6, 8] : List Int) :=
  C5_output_strictly_ascending errCal 0 0 10 twoNs ClosedWindow.Both
    TimeUnit.Nanoseconds Option.none [0, 2, 4, 6, 8] rfl rfl
    (Or.inl ⟨rfl, rfl, rfl⟩) (by decide)

/-- Claim C6: on the general (calendar) path, the starting step index is `0`
for Both/Left and `1` for Right/None; position `j` of the output is the
offset applier's value at index `startIdx closed + j` and satisfies the
continuation condition (`t ≤ end` for Both/Right, `t < end` for Left/None);
and the first candidate failing the condition is produced but discarded,
never appended. -/
theorem C6_general_path_loop (cal : Calendar) (fuel : Nat) (start endv : Int)
    (interval : Duration) (closed : ClosedWindow) (tu : TimeUnit)
    (tz : Option Tz) (l : List Int)
    (hneg : interval.negative = false) (hnz : interval.is_zero = false)
    (hcal : ¬(interval.weeks = 0 ∧ interval.months = 0 ∧ interval.days = 0))
    (hse : start ≤ endv)
    (hres : datetime_range_i64 cal fuel start endv interval closed tu tz =
      some (Except.ok l)) :
    (startIdx ClosedWindow.Both = 0 ∧ startIdx ClosedWindow.Left = 0 ∧
      startIdx ClosedWindow.Right = 1 ∧ startIdx ClosedWindow.None = 1) ∧
    (∀ j (hj : j < l.length),
        apply_time_add cal start interval (startIdx closed + j) tu tz =
          Except.ok (l.get ⟨j, hj⟩) ∧
        contCond closed (l.get ⟨j, hj⟩) endv = true) ∧
    ∃ t, apply_time_add cal start interval (startIdx closed + l.length) tu tz =
        Except.ok t ∧ contCond closed t endv = false ∧ t ∉ l := by
  unfold datetime_range_i64 at hres
  rw [if_neg (not_lt.mpr hse), if_neg (by simp [hneg, hnz]), if_neg hcal]
    at hres
  obtain ⟨hall, t, hlast, hcond⟩ := genLoop_ok_spec _ _ _ _ _ _ hres
  refine ⟨⟨rfl, rfl, rfl, rfl⟩, hall, t, hlast, hcond, ?_⟩
  intro hmem
  obtain ⟨n, hn⟩ := List.get_of_mem hmem
  have hmemcond := (hall n.1 n.2).2
  rw [Fin.eta, hn] at hmemcond
  simp [hmemcond] at hcond

/-- Witness for C6 at a concrete calendar-path input: one-day steps over two
days (milliseconds, fake 30-day calendar) produce `[0, 86400000, 172800000]`
and the discarded fourth candidate `259200000`. -/
theorem C6_general_path_loop_witness :
    (startIdx ClosedWindow.Both = 0 ∧ startIdx ClosedWindow.Left = 0 ∧
      startIdx ClosedWindow.Right = 1 ∧ startIdx ClosedWindow.None = 1) ∧
    (∀ j (hj : j < ([0, 86400000, 172800000] : List Int).length),
        apply_time_add thirtyCal 0 oneDay (startIdx ClosedWindow.Both + j)
          TimeUnit.Milliseconds Option.none =
          Except.ok (([0, 86400000, 172800000] : List Int).get ⟨j, hj⟩) ∧
        contCond ClosedWindow.Both
          (([0, 86400000, 172800000] : List Int).get ⟨j, hj⟩) 172800000 = true) ∧
    ∃ t, apply_time_add thirtyCal 0 oneDay
        (startIdx ClosedWindow.Both + ([0, 86400000, 172800000] : List Int).length)
        TimeUnit.Milliseconds Option.none = Except.ok t ∧
        contCond ClosedWindow.Both t 172800000 = false ∧
        t ∉ ([0, 86400000, 172800000] : List Int) :=
  C6_general_path_loop thirtyCal 5 0 172800000 oneDay ClosedWindow.Both
    TimeUnit.Milliseconds Option.none [0, 86400000, 172800000] rfl rfl
    (by decide) (by decide) (by decide)

/-- Claim C7: if the offset applier succeeds with in-range values for the
first `k` steps of the general path and then fails at step `startIdx + k`,
the generator returns exactly that error and no partial sequence (given fuel
for the iterations actually executed). -/
theorem C7_error_propagation (cal : Calendar) (fuel : Nat) (start endv : Int)
    (interval : Duration) (closed : ClosedWindow) (tu : TimeUnit)
    (tz : Option Tz) (k : Nat) (err : PolarsError)
    (hneg : interval.negative = false) (hnz : interval.is_zero = false)
    (hcal : ¬(interval.weeks = 0 ∧ interval.months = 0 ∧ interval.days = 0))
    (hse : start ≤ endv) (hfuel : k < fuel)
    (hok : ∀ j : Nat, j < k → ∃ t,
      apply_time_add cal start interval (startIdx closed + j) tu tz =
        Except.ok t ∧ contCond closed t endv = true)
    (herr : apply_time_add cal start interval (startIdx closed + k) tu tz =
      Except.error err) :
    datetime_range_i64 cal fuel start endv interval closed tu tz =
      some (Except.error err) := by
  unfold datetime_range_i64
  rw [if_neg (not_lt.mpr hse), if_neg (by simp [hneg, hnz]), if_neg hcal]
  exact genLoop_error_of_prefix _ _ _ k fuel _ err hfuel hok herr

/-- Witness for C7: with the always-failing calendar capability the very
first offset application errors, and the generator returns that error. -/
theorem C7_error_propagation_witness :
    datetime_range_i64 errCal 1 0 172800000 oneDay ClosedWindow.Both
      TimeUnit.Milliseconds Option.none =
      some (Except.error PolarsError.Overflow) :=
  C7_error_propagation errCal 1 0 172800000 oneDay ClosedWindow.Both
    TimeUnit.Milliseconds Option.none 0 PolarsError.Overflow rfl rfl
    (by decide) (by decide) (by decide)
    (fun j hj => absurd hj (Nat.not_lt_zero j)) (by decide)

/-- Claim C8: whenever the underlying generator succeeds, `datetime_range_impl`
returns a column carrying exactly the generated integers with the requested
unit and the optional timezone name attached and the sorted flag set to
ascending, and `time_range_impl` — which always runs the generator at
nanoseconds with no timezone — does likewise for the time column. -/
theorem C8_wrappers_attach_metadata (cal : Calendar) (fuel : Nat) (nm : String)
    (start endv : Int) (interval : Duration) (closed : ClosedWindow)
    (tu : TimeUnit) (tz : Option Tz) (v w : List Int)
    (h1 : datetime_range_i64 cal fuel start endv interval closed tu tz =
      some (Except.ok v))
    (h2 : datetime_range_i64 cal fuel start endv interval closed
      TimeUnit.Nanoseconds Option.none = some (Except.ok w)) :
    datetime_range_impl cal fuel nm start endv interval closed tu tz =
      some (Except.ok ⟨nm, v, tu, tz.map (fun t => t.name), IsSorted.Ascending⟩) ∧
    time_range_impl cal fuel nm start endv interval closed =
      some (Except.ok ⟨nm, w, IsSorted.Ascending⟩) := by
  constructor
  · unfold datetime_range_impl
    rw [h1]
  · unfold time_range_impl
    rw [h2]

/-- Witness for C8 at a concrete input: the datetime column carries the
values, the millisecond unit, the timezone name and the ascending flag; the
time column carries the nanosecond-generated values and the ascending flag. -/
theorem C8_wrappers_attach_metadata_witness :
    datetime_range_impl errCal 0 "r" 0 10 twoNs ClosedWindow.Both
      TimeUnit.Milliseconds (some amsterdamTz) =
      some (Except.ok ⟨"r", [0, 2, 4, 6, 8], TimeUnit.Milliseconds,
        some "Europe Amsterdam", IsSorted.Ascending⟩) ∧
    time_range_impl errCal 0 "r" 0 10 twoNs ClosedWindow.Both =
      some (Except.ok ⟨"r", [0, 2, 4, 6, 8], IsSorted.Ascending⟩) :=
  C8_wrappers_attach_metadata errCal 0 "r" 0 10 twoNs ClosedWindow.Both
    TimeUnit.Milliseconds (some amsterdamTz) [0, 2, 4, 6, 8] [0, 2, 4, 6, 8]
    (by decide) (by decide)

/-- Claim C10: `in_nanoseconds_window` holds exactly when the year lies in
the inclusive range 1386..2554. -/
theorem C10_in_nanoseconds_window_iff (ndt : NaiveDateTime) :
    in_nanoseconds_window ndt = true ↔ 1386 ≤ ndt.year ∧ ndt.year ≤ 2554 := by
  simp [in_nanoseconds_window]
  omega

end PolarsTime
